import Mathlib

/-!
Verification of the Alexa ↔ Gemini bridge skill.

Shallow embedding of `src/gemini-skill/backend/main.py` and
`src/shared/alexa_utils.py`. Alexa request envelopes are modelled by the
fields the handlers actually inspect (request type, intent name, slots);
the Alexa `Response` object by the three fields the response builder sets
(output speech, simple card, should-end-session flag). The external Gemini
call is a parameter `ask_gemini : String → Except String String`, where the
error string models the stringified Python exception; the second component
of `GeminiQueryIntentHandler.handleWith` counts how many external calls the
handler performs.
-/

namespace AlexaGemini

/-- Request categories the handlers distinguish: `LaunchRequest`,
`IntentRequest` and `SessionEndedRequest`. -/
inductive RequestType where
  | launchRequest
  | intentRequest
  | sessionEndedRequest
deriving DecidableEq

/-- The inbound envelope fields the skill inspects. `intentName` is `none`
for non-intent requests; each slot carries an optional value, as in the
ask-sdk where `Slot.value` may be `None`. -/
structure RequestEnvelope where
  requestType : RequestType
  intentName : Option String
  slots : List (String × Option String)
deriving DecidableEq

/-- The outbound response fields the handlers set: output speech text, a
simple card (title, content), and the should-end-session flag. A field is
`none` when the builder never set it. -/
structure AlexaResponse where
  outputSpeech : Option String
  card : Option (String × String)
  shouldEndSession : Option Bool
deriving DecidableEq

/-- Fresh response builder state: nothing set. -/
def ResponseBuilder.empty : AlexaResponse :=
  { outputSpeech := none, card := none, shouldEndSession := none }

/-- The `response_builder.speak` step. -/
def speak (text : String) (r : AlexaResponse) : AlexaResponse :=
  { r with outputSpeech := some text }

/-- The `response_builder.set_card(SimpleCard(title, content))` step. -/
def set_card (c : String × String) (r : AlexaResponse) : AlexaResponse :=
  { r with card := some c }

/-- The `response_builder.set_should_end_session` step. -/
def set_should_end_session (b : Bool) (r : AlexaResponse) : AlexaResponse :=
  { r with shouldEndSession := some b }

/-- The ask-sdk `is_request_type(t)` predicate. -/
def is_request_type (t : RequestType) (env : RequestEnvelope) : Bool :=
  env.requestType == t

/-- The ask-sdk `is_intent_name(name)` predicate: the request is an
`IntentRequest` whose intent has the given name. -/
def is_intent_name (name : String) (env : RequestEnvelope) : Bool :=
  env.requestType == RequestType.intentRequest && env.intentName == some name

/-- The `can_handle` of `LaunchRequestHandler` in main.py. -/
def LaunchRequestHandler.can_handle (env : RequestEnvelope) : Bool :=
  is_request_type RequestType.launchRequest env

/-- The fixed welcome speech of `LaunchRequestHandler.handle`. -/
def launchRequestSpeech : String :=
  "Welcome to Gemini. You can ask me anything. For example, say: ask, what is the speed of light?"

/-- The `handle` of `LaunchRequestHandler` in main.py. -/
def LaunchRequestHandler.handle (_env : RequestEnvelope) : AlexaResponse :=
  set_should_end_session false
    (set_card ("Gemini", launchRequestSpeech) (speak launchRequestSpeech ResponseBuilder.empty))

/-- The `can_handle` of `GeminiQueryIntentHandler` in main.py. -/
def GeminiQueryIntentHandler.can_handle (env : RequestEnvelope) : Bool :=
  is_intent_name "GeminiQueryIntent" env

/-- The slot extraction in `GeminiQueryIntentHandler.handle`:
`slots["question"].value if slots.get("question") else ""`. A present slot
with value `None` yields the empty string, exactly as the Python falsiness
check `if not question` treats `None` and `""` alike. -/
def questionSlotValue (env : RequestEnvelope) : String :=
  match env.slots.lookup "question" with
  | some v => v.getD ""
  | none => ""

/-- The `handle` of `GeminiQueryIntentHandler` in main.py, parameterised by
the external call `_ask_gemini`. Returns the built response together with
the number of external calls performed. -/
def GeminiQueryIntentHandler.handleWith (ask_gemini : String → Except String String)
    (env : RequestEnvelope) : AlexaResponse × Nat :=
  let question := questionSlotValue env
  if question == "" then
    let speech := "I didn\x27t catch a question. Please try again."
    (set_should_end_session true
      (set_card ("Gemini", speech) (speak speech ResponseBuilder.empty)), 0)
  else
    let speech :=
      match ask_gemini question with
      | Except.ok t => t
      | Except.error exc => "Sorry, I couldn\x27t reach Gemini right now. Error: " ++ exc
    (set_should_end_session true
      (set_card ("Gemini", speech) (speak speech ResponseBuilder.empty)), 1)

/-- The `can_handle` of `HelpIntentHandler` in main.py. -/
def HelpIntentHandler.can_handle (env : RequestEnvelope) : Bool :=
  is_intent_name "AMAZON.HelpIntent" env

/-- The fixed help speech of `HelpIntentHandler.handle`. -/
def helpSpeech : String :=
  "You can ask me any question. For example: ask, what is quantum computing?"

/-- The `handle` of `HelpIntentHandler` in main.py. -/
def HelpIntentHandler.handle (_env : RequestEnvelope) : AlexaResponse :=
  set_should_end_session false
    (set_card ("Gemini Help", helpSpeech) (speak helpSpeech ResponseBuilder.empty))

/-- The `can_handle` of `CancelAndStopIntentHandler` in main.py. -/
def CancelAndStopIntentHandler.can_handle (env : RequestEnvelope) : Bool :=
  is_intent_name "AMAZON.CancelIntent" env || is_intent_name "AMAZON.StopIntent" env

/-- The `handle` of `CancelAndStopIntentHandler` in main.py: says Goodbye,
sets no card, ends the session. -/
def CancelAndStopIntentHandler.handle (_env : RequestEnvelope) : AlexaResponse :=
  set_should_end_session true (speak "Goodbye!" ResponseBuilder.empty)

/-- The `can_handle` of `SessionEndedRequestHandler` in main.py. -/
def SessionEndedRequestHandler.can_handle (env : RequestEnvelope) : Bool :=
  is_request_type RequestType.sessionEndedRequest env

/-- The `handle` of `SessionEndedRequestHandler` in main.py: returns the
untouched builder, i.e. the empty response. -/
def SessionEndedRequestHandler.handle (_env : RequestEnvelope) : AlexaResponse :=
  ResponseBuilder.empty

/-- The `can_handle` of `CatchAllExceptionHandler`: always true. -/
def CatchAllExceptionHandler.can_handle (_env : RequestEnvelope) (_exc : String) : Bool :=
  true

/-- The fixed apology speech of `CatchAllExceptionHandler.handle`. -/
def catchAllSpeech : String :=
  "Sorry, something went wrong. Please try again later."

/-- The `handle` of `CatchAllExceptionHandler` in main.py: generic apology,
no card, session ends, the triggering exception is ignored. -/
def CatchAllExceptionHandler.handle (_env : RequestEnvelope) (_exc : String) : AlexaResponse :=
  set_should_end_session true (speak catchAllSpeech ResponseBuilder.empty)

/-- Tags for the five request handlers registered on the gemini skill. -/
inductive HandlerTag where
  | launch
  | geminiQuery
  | help
  | cancelStop
  | sessionEnded
deriving DecidableEq

/-- The `can_handle` predicate of each registered handler. -/
def canHandleOf : HandlerTag → RequestEnvelope → Bool
  | HandlerTag.launch => LaunchRequestHandler.can_handle
  | HandlerTag.geminiQuery => GeminiQueryIntentHandler.can_handle
  | HandlerTag.help => HelpIntentHandler.can_handle
  | HandlerTag.cancelStop => CancelAndStopIntentHandler.can_handle
  | HandlerTag.sessionEnded => SessionEndedRequestHandler.can_handle

/-- The `handle` method of each registered handler. -/
def handleOf (ask_gemini : String → Except String String) :
    HandlerTag → RequestEnvelope → AlexaResponse
  | HandlerTag.launch => LaunchRequestHandler.handle
  | HandlerTag.geminiQuery => fun env => (GeminiQueryIntentHandler.handleWith ask_gemini env).1
  | HandlerTag.help => HelpIntentHandler.handle
  | HandlerTag.cancelStop => CancelAndStopIntentHandler.handle
  | HandlerTag.sessionEnded => SessionEndedRequestHandler.handle

/-- The order of the `sb.add_request_handler` calls in main.py. -/
def registrationOrder : List HandlerTag :=
  [HandlerTag.launch, HandlerTag.geminiQuery, HandlerTag.help,
   HandlerTag.cancelStop, HandlerTag.sessionEnded]

/-- The ask-sdk dispatcher: the first registered handler whose `can_handle`
returns true, if any. -/
def dispatch (env : RequestEnvelope) : Option HandlerTag :=
  registrationOrder.find? (fun t => canHandleOf t env)

/-- The skill invocation: dispatch to the first matching handler; when no
handler matches, the dispatch failure is routed to the registered exception
handler (`CatchAllExceptionHandler`, whose `can_handle` is always true). -/
def skillInvoke (ask_gemini : String → Except String String)
    (env : RequestEnvelope) : AlexaResponse :=
  match dispatch env with
  | some t => handleOf ask_gemini t env
  | none => CatchAllExceptionHandler.handle env "Unable to find a suitable request handler"

/-- Request handlers registered by `build_skill` in alexa_utils.py: the
caller-supplied skill-specific handlers plus the two appended generic ones. -/
inductive BuiltRequestHandler (α : Type) where
  | skillSpecific (h : α)
  | cancelAndStop
  | sessionEnded
deriving DecidableEq

/-- Exception handlers registered by `build_skill` in alexa_utils.py:
either the default catch-all or a caller-provided handler. -/
inductive BuiltExceptionHandler (β : Type) where
  | catchAll
  | provided (h : β)
deriving DecidableEq

/-- The handler lists accumulated by the `SkillBuilder` in `build_skill`. -/
structure Skill (α β : Type) where
  request_handlers : List (BuiltRequestHandler α)
  exception_handlers : List (BuiltExceptionHandler β)
deriving DecidableEq

/-- The `build_skill` helper of alexa_utils.py. Request handlers: the given
skill-specific ones in order, then `CancelAndStopIntentHandler` and
`SessionEndedRequestHandler`. Exception handlers: the Python expression
`exception_handlers or [CatchAllExceptionHandler()]` falls back to the
catch-all both when the argument is `None` and when it is an empty list
(Python falsiness). -/
def build_skill {α β : Type} (request_handlers : List α)
    (exception_handlers : Option (List β)) : Skill α β :=
  { request_handlers :=
      request_handlers.map BuiltRequestHandler.skillSpecific ++
        [BuiltRequestHandler.cancelAndStop, BuiltRequestHandler.sessionEnded],
    exception_handlers :=
      match exception_handlers with
      | some l =>
          if l.isEmpty then [BuiltExceptionHandler.catchAll]
          else l.map BuiltExceptionHandler.provided
      | none => [BuiltExceptionHandler.catchAll] }

/-- Sample envelope: a launch request. -/
def envLaunch : RequestEnvelope :=
  { requestType := RequestType.launchRequest, intentName := none, slots := [] }

/-- Sample envelope: a GeminiQueryIntent request with a populated question
slot (Scenario B of the spec). -/
def envSpeedOfLight : RequestEnvelope :=
  { requestType := RequestType.intentRequest,
    intentName := some "GeminiQueryIntent",
    slots := [("question", some "What is the speed of light?")] }

/-- Sample envelope: a GeminiQueryIntent request with no question slot. -/
def envNoQuestion : RequestEnvelope :=
  { requestType := RequestType.intentRequest,
    intentName := some "GeminiQueryIntent", slots := [] }

/-- Sample envelope: an intent request with an unrecognised intent name. -/
def envUnknownIntent : RequestEnvelope :=
  { requestType := RequestType.intentRequest,
    intentName := some "MysteryIntent", slots := [] }

/-- Sample envelope: an AMAZON.StopIntent request (Scenario D of the spec). -/
def envStop : RequestEnvelope :=
  { requestType := RequestType.intentRequest,
    intentName := some "AMAZON.StopIntent", slots := [] }

/-- Stub upstream call that answers every question with a fixed text. -/
def askStub : String → Except String String :=
  fun _q => Except.ok "299,792,458 m/s"

/-- Stub upstream call that fails every question with a fixed error. -/
def askFailing : String → Except String String :=
  fun _q => Except.error "network unreachable"

/-- C1 counterexample: on the envelope whose `question` slot is absent, the
query-intent handler does match, returns the fixed re-prompt text and makes
no external call, but sets `shouldEndSession` to true, not false as the
claim states. -/
theorem C1_counterexample :
    GeminiQueryIntentHandler.can_handle envNoQuestion = true ∧
    (GeminiQueryIntentHandler.handleWith askFailing envNoQuestion).1.outputSpeech =
      some "I didn\x27t catch a question. Please try again." ∧
    (GeminiQueryIntentHandler.handleWith askFailing envNoQuestion).2 = 0 ∧
    ¬ (GeminiQueryIntentHandler.handleWith askFailing envNoQuestion).1.shouldEndSession =
        some false := by
  refine ⟨rfl, rfl, rfl, ?_⟩
  decide

/-- C1 (amended): whenever the query-intent handler matches and the
`question` slot is absent or empty, `handle` returns the fixed re-prompt
text with `shouldEndSession = true` and performs no external call. -/
theorem C1_empty_question (ask_gemini : String → Except String String)
    (env : RequestEnvelope)
    (_hmatch : GeminiQueryIntentHandler.can_handle env = true)
    (hq : questionSlotValue env = "") :
    (GeminiQueryIntentHandler.handleWith ask_gemini env).1 =
      { outputSpeech := some "I didn\x27t catch a question. Please try again.",
        card := some ("Gemini", "I didn\x27t catch a question. Please try again."),
        shouldEndSession := some true } ∧
    (GeminiQueryIntentHandler.handleWith ask_gemini env).2 = 0 := by
  simp [GeminiQueryIntentHandler.handleWith, hq, speak, set_card,
    set_should_end_session, ResponseBuilder.empty]

/-- C1 witness: the amended statement instantiated at a concrete envelope
with no `question` slot. -/
theorem C1_empty_question_witness :
    (GeminiQueryIntentHandler.handleWith askFailing envNoQuestion).1 =
      { outputSpeech := some "I didn\x27t catch a question. Please try again.",
        card := some ("Gemini", "I didn\x27t catch a question. Please try again."),
        shouldEndSession := some true } ∧
    (GeminiQueryIntentHandler.handleWith askFailing envNoQuestion).2 = 0 :=
  C1_empty_question askFailing envNoQuestion (by decide) (by decide)

/-- C2: when the `question` slot value is non-empty and the external call
succeeds with text t, the handler speaks t verbatim, the card is
("Gemini", t), and the session ends. -/
theorem C2_success_verbatim (ask_gemini : String → Except String String)
    (env : RequestEnvelope) (t : String)
    (hq : questionSlotValue env ≠ "")
    (hok : ask_gemini (questionSlotValue env) = Except.ok t) :
    (GeminiQueryIntentHandler.handleWith ask_gemini env).1 =
      { outputSpeech := some t, card := some ("Gemini", t),
        shouldEndSession := some true } := by
  simp [GeminiQueryIntentHandler.handleWith, hq, hok, speak, set_card,
    set_should_end_session, ResponseBuilder.empty]

/-- C2 witness: Scenario B of the spec, with the stub upstream call
returning the speed of light. -/
theorem C2_success_verbatim_witness :
    (GeminiQueryIntentHandler.handleWith askStub envSpeedOfLight).1 =
      { outputSpeech := some "299,792,458 m/s",
        card := some ("Gemini", "299,792,458 m/s"),
        shouldEndSession := some true } :=
  C2_success_verbatim askStub envSpeedOfLight "299,792,458 m/s" (by decide) rfl

/-- C3: when the `question` slot value is non-empty and the external call
fails with stringified error e, the handler speaks the apology text
followed by e and ends the session; the handler is total, so the error
never propagates. -/
theorem C3_failure_apology (ask_gemini : String → Except String String)
    (env : RequestEnvelope) (e : String)
    (hq : questionSlotValue env ≠ "")
    (herr : ask_gemini (questionSlotValue env) = Except.error e) :
    (GeminiQueryIntentHandler.handleWith ask_gemini env).1 =
      { outputSpeech :=
          some ("Sorry, I couldn\x27t reach Gemini right now. Error: " ++ e),
        card :=
          some ("Gemini", "Sorry, I couldn\x27t reach Gemini right now. Error: " ++ e),
        shouldEndSession := some true } := by
  simp [GeminiQueryIntentHandler.handleWith, hq, herr, speak, set_card,
    set_should_end_session, ResponseBuilder.empty]

/-- C3 witness: Scenario C of the spec, with the stub upstream call raising
a simulated network failure. -/
theorem C3_failure_apology_witness :
    (GeminiQueryIntentHandler.handleWith askFailing envSpeedOfLight).1 =
      { outputSpeech :=
          some ("Sorry, I couldn\x27t reach Gemini right now. Error: " ++
            "network unreachable"),
        card :=
          some ("Gemini", "Sorry, I couldn\x27t reach Gemini right now. Error: " ++
            "network unreachable"),
        shouldEndSession := some true } :=
  C3_failure_apology askFailing envSpeedOfLight "network unreachable" (by decide) rfl

/-- C4: when no registered request handler matches an envelope, the skill
invocation routes through the catch-all boundary and returns the fixed
generic apology with `shouldEndSession = true`; moreover the catch-all
exception handler accepts every (envelope, exception) pair and always
returns that same apology, so no raw fault reaches the caller. -/
theorem C4_catch_all_boundary :
    (∀ (ask_gemini : String → Except String String) (env : RequestEnvelope),
      dispatch env = none →
        skillInvoke ask_gemini env =
          { outputSpeech := some "Sorry, something went wrong. Please try again later.",
            card := none, shouldEndSession := some true }) ∧
    (∀ (env : RequestEnvelope) (exc : String),
      CatchAllExceptionHandler.can_handle env exc = true ∧
        CatchAllExceptionHandler.handle env exc =
          { outputSpeech := some "Sorry, something went wrong. Please try again later.",
            card := none, shouldEndSession := some true }) := by
  constructor
  · intro ask_gemini env hnone
    simp [skillInvoke, hnone, CatchAllExceptionHandler.handle, catchAllSpeech,
      speak, set_should_end_session, ResponseBuilder.empty]
  · intro env exc
    exact ⟨rfl, rfl⟩

/-- C4 witness: Scenario E of the spec, an envelope with an unrecognised
intent name reaches the catch-all apology. -/
theorem C4_catch_all_boundary_witness :
    skillInvoke askStub envUnknownIntent =
      { outputSpeech := some "Sorry, something went wrong. Please try again later.",
        card := none, shouldEndSession := some true } :=
  C4_catch_all_boundary.1 askStub envUnknownIntent (by decide)

/-- C5: the registration order places the skill-specific handlers (Launch,
GeminiQuery, Help) before the generic fallbacks (Cancel/Stop,
SessionEnded), and dispatch selects exactly the first handler in that
order whose `can_handle` returns true: `dispatch env = some t` exactly when
t matches env and every handler registered before t does not. -/
theorem C5_first_match_dispatch :
    registrationOrder =
      [HandlerTag.launch, HandlerTag.geminiQuery, HandlerTag.help,
       HandlerTag.cancelStop, HandlerTag.sessionEnded] ∧
    (∀ env : RequestEnvelope, ∀ t : HandlerTag,
      dispatch env = some t ↔
        canHandleOf t env = true ∧
          ∃ pre post, registrationOrder = pre ++ t :: post ∧
            ∀ s ∈ pre, canHandleOf s env = false) := by
  refine ⟨rfl, fun env t => ?_⟩
  rw [dispatch, List.find?_eq_some]
  simp

/-- C5 witness: the AMAZON.StopIntent envelope dispatches to the
Cancel/Stop handler, fourth in registration order. -/
theorem C5_first_match_dispatch_witness :
    dispatch envStop = some HandlerTag.cancelStop :=
  (C5_first_match_dispatch.2 envStop HandlerTag.cancelStop).mpr
    ⟨by decide,
      [HandlerTag.launch, HandlerTag.geminiQuery, HandlerTag.help],
      [HandlerTag.sessionEnded], rfl, by decide⟩

/-- C6: each static handler returns its fixed payload: Launch speaks the
welcome text with `shouldEndSession = false`, Help speaks its fixed text
with `shouldEndSession = false`, Cancel/Stop speaks Goodbye with
`shouldEndSession = true`, and SessionEnded returns the empty payload. -/
theorem C6_static_handler_payloads :
    (∀ env : RequestEnvelope, LaunchRequestHandler.handle env =
      { outputSpeech :=
          some "Welcome to Gemini. You can ask me anything. For example, say: ask, what is the speed of light?",
        card :=
          some ("Gemini", "Welcome to Gemini. You can ask me anything. For example, say: ask, what is the speed of light?"),
        shouldEndSession := some false }) ∧
    (∀ env : RequestEnvelope, HelpIntentHandler.handle env =
      { outputSpeech :=
          some "You can ask me any question. For example: ask, what is quantum computing?",
        card :=
          some ("Gemini Help", "You can ask me any question. For example: ask, what is quantum computing?"),
        shouldEndSession := some false }) ∧
    (∀ env : RequestEnvelope, CancelAndStopIntentHandler.handle env =
      { outputSpeech := some "Goodbye!", card := none,
        shouldEndSession := some true }) ∧
    (∀ env : RequestEnvelope, SessionEndedRequestHandler.handle env =
      { outputSpeech := none, card := none, shouldEndSession := none }) :=
  ⟨fun _ => rfl, fun _ => rfl, fun _ => rfl, fun _ => rfl⟩

/-- C7: on any envelope, the `can_handle` predicates of the registered
handler variants are pairwise disjoint: if variant t matches, then a
variant s matches exactly when s = t. -/
theorem C7_variant_disjointness (env : RequestEnvelope) (t s : HandlerTag)
    (ht : canHandleOf t env = true) :
    canHandleOf s env = true ↔ s = t := by
  cases t <;> cases s <;>
    simp_all [canHandleOf, LaunchRequestHandler.can_handle,
      GeminiQueryIntentHandler.can_handle, HelpIntentHandler.can_handle,
      CancelAndStopIntentHandler.can_handle, SessionEndedRequestHandler.can_handle,
      is_intent_name, is_request_type] <;>
    rcases ht with ⟨h1, h2⟩ | ⟨h1, h2⟩ <;> simp_all

/-- C7 witness: the disjointness theorem applied at the launch envelope. -/
theorem C7_variant_disjointness_witness :
    canHandleOf HandlerTag.launch envLaunch = true :=
  (C7_variant_disjointness envLaunch HandlerTag.launch HandlerTag.launch
    (by decide)).mpr rfl

/-- C8: the static handlers are deterministic; in fact each one ignores the
envelope entirely, so any two invocations — a fortiori two on structurally
identical inputs — return identical payloads. -/
theorem C8_static_handler_determinism :
    (∀ e1 e2 : RequestEnvelope,
      LaunchRequestHandler.handle e1 = LaunchRequestHandler.handle e2) ∧
    (∀ e1 e2 : RequestEnvelope,
      HelpIntentHandler.handle e1 = HelpIntentHandler.handle e2) ∧
    (∀ e1 e2 : RequestEnvelope,
      CancelAndStopIntentHandler.handle e1 = CancelAndStopIntentHandler.handle e2) ∧
    (∀ e1 e2 : RequestEnvelope,
      SessionEndedRequestHandler.handle e1 = SessionEndedRequestHandler.handle e2) :=
  ⟨fun _ _ => rfl, fun _ _ => rfl, fun _ _ => rfl, fun _ _ => rfl⟩

/-- C9: on every branch of the query-intent handler (empty question,
upstream success, upstream failure) the returned payload has a card titled
Gemini whose content equals the spoken text, and `shouldEndSession = true`. -/
theorem C9_query_card_invariant (ask_gemini : String → Except String String)
    (env : RequestEnvelope)
    (_hmatch : GeminiQueryIntentHandler.can_handle env = true) :
    ∃ s : String, (GeminiQueryIntentHandler.handleWith ask_gemini env).1 =
      { outputSpeech := some s, card := some ("Gemini", s),
        shouldEndSession := some true } := by
  unfold GeminiQueryIntentHandler.handleWith
  by_cases hq : questionSlotValue env = ""
  · exact ⟨"I didn\x27t catch a question. Please try again.",
      by simp [hq, speak, set_card, set_should_end_session, ResponseBuilder.empty]⟩
  · cases hr : ask_gemini (questionSlotValue env) with
    | ok t =>
        exact ⟨t, by simp [hq, hr, speak, set_card, set_should_end_session,
          ResponseBuilder.empty]⟩
    | error e =>
        exact ⟨"Sorry, I couldn\x27t reach Gemini right now. Error: " ++ e,
          by simp [hq, hr, speak, set_card, set_should_end_session,
            ResponseBuilder.empty]⟩

/-- C9 witness: the card/session invariant instantiated at the populated
question envelope with the stub upstream call. -/
theorem C9_query_card_invariant_witness :
    ∃ s : String, (GeminiQueryIntentHandler.handleWith askStub envSpeedOfLight).1 =
      { outputSpeech := some s, card := some ("Gemini", s),
        shouldEndSession := some true } :=
  C9_query_card_invariant askStub envSpeedOfLight (by decide)

/-- C10 counterexample: with an explicitly provided empty exception-handler
list, `build_skill` still registers the catch-all handler — the provided
list is not honoured, refuting the claim's if-and-only-if at
`exception_handlers = some []`. -/
theorem C10_counterexample :
    (build_skill ([] : List Unit) (some ([] : List Unit))).exception_handlers =
      [BuiltExceptionHandler.catchAll] ∧
    ¬ (build_skill ([] : List Unit) (some ([] : List Unit))).exception_handlers =
        ([] : List Unit).map BuiltExceptionHandler.provided := by
  refine ⟨rfl, ?_⟩
  simp [build_skill]

/-- C10 (amended): `build_skill` registers the given request handlers in
order followed by the Cancel/Stop and SessionEnded handlers; the catch-all
is the sole exception handler exactly when the exception-handler argument
is absent or the empty list (Python falsiness of the `or` default), and a
provided non-empty list is registered as given. -/
theorem C10_build_skill {α β : Type} (hs : List α) (es : Option (List β)) :
    (build_skill hs es).request_handlers =
      hs.map BuiltRequestHandler.skillSpecific ++
        [BuiltRequestHandler.cancelAndStop, BuiltRequestHandler.sessionEnded] ∧
    ((build_skill hs es).exception_handlers = [BuiltExceptionHandler.catchAll] ↔
      es = none ∨ es = some []) ∧
    (∀ l : List β, es = some l → l ≠ [] →
      (build_skill hs es).exception_handlers = l.map BuiltExceptionHandler.provided) := by
  refine ⟨rfl, ?_, ?_⟩
  · cases es with
    | none => simp [build_skill]
    | some l =>
        cases l with
        | nil => simp [build_skill]
        | cons b bs => simp [build_skill]
  · intro l hl hne
    subst hl
    cases l with
    | nil => exact absurd rfl hne
    | cons b bs => simp [build_skill]

/-- C10 witness: the amended statement instantiated with one skill-specific
handler and one provided exception handler. -/
theorem C10_build_skill_witness :
    (build_skill ([0] : List Nat) (some ([7] : List Nat))).exception_handlers =
      [BuiltExceptionHandler.provided 7] :=
  (C10_build_skill [0] (some [7])).2.2 [7] rfl (by simp)

end AlexaGemini
